import Mathlib

/-!
Verification of the Mastery-Gated Progression Engine of the eduaithon
repository: the server watch-progress ratchet, the client playback seek
guard (`ControlledVideoPlayer.tsx`), and the attention sampler/debouncer
(`useAttentionTracker.ts`, `AttentionMonitor.tsx`), shallowly embedded
in Lean 4 with Nat timestamps and second counts.
-/

set_option autoImplicit false
set_option linter.unusedVariables false

namespace Eduaithon

/-! ## Progress Store & Sync Protocol (server side) -/

/-- Modelled from the spec: `MAX_ADVANCE`, the maximum plausible ratchet
advance between two sync calls.  The backend Python service is not part
of the repository snapshot; `PROJECT_DOCUMENTATION.md` ("Server-side
validation rejects any progress update > `last_max + 15s`") fixes the
constant at 15 seconds. -/
def MAX_ADVANCE : Nat := 15

/-- Modelled from the spec: the accepted ratchet update of
`reportProgress` — `newMax = min(max(lastMax, watchedSeconds),
lastMax + MAX_ADVANCE)`.  The backend Python handler itself is missing
from the snapshot; this definition follows the spec formula verbatim. -/
def reportProgressMax (lastMax watchedSeconds : Nat) : Nat :=
  min (max lastMax watchedSeconds) (lastMax + MAX_ADVANCE)

/-- Modelled from the spec: the server recomputes
`completed = maxWatchedSeconds >= 0.9 * totalSeconds` on every report.
Stated over Nat as `9 * total ≤ 10 * maxWatched` to avoid fractions. -/
def serverCompleted (maxWatched totalSeconds : Nat) : Bool :=
  decide (9 * totalSeconds ≤ 10 * maxWatched)

/-- The successive stored ratchet values produced by a sequence of
`reportProgress` calls, starting from stored value `last` (0 for a
fresh record). -/
def ratchetSteps (last : Nat) : List Nat → List Nat
  | [] => []
  | w :: ws =>
      reportProgressMax last w :: ratchetSteps (reportProgressMax last w) ws

/-! ## Playback Seek Guard (`ControlledVideoPlayer.tsx`) -/

/-- `handleSeeking`: for a mandatory video the target position is
clamped back to `maxWatched` whenever it exceeds
`allowedMax = maxWatched + 2` (the 2-second buffer); otherwise, and for
non-mandatory videos, the position is left unchanged.  Returns the
playback position after the handler runs. -/
def handleSeeking (isMandatory : Bool) (maxWatched target : Nat) : Nat :=
  if !isMandatory then target
  else
    let allowedMax := maxWatched + 2
    if target > allowedMax then maxWatched else target

/-- `handleTimeUpdate`: the optimistic local ratchet — if the current
time is past `maxWatched`, `maxWatched` is raised to it. -/
def handleTimeUpdate (maxWatched currentTime : Nat) : Nat :=
  if currentTime > maxWatched then currentTime else maxWatched

/-- `saveProgress` response handling: the client runs
`setMaxWatched(res.data.max_watched_seconds)` — the server-returned
value replaces the local `maxWatched` unconditionally, with no
timestamp or ordinal comparison. -/
def applyProgressResponse (maxWatched respMaxWatched : Nat) : Nat :=
  respMaxWatched

/-- The payload the client posts to `POST /videos/{id}/progress`. -/
structure ProgressPost where
  watched_seconds : Nat
  total_seconds : Nat
deriving Repr, DecidableEq

/-- The argument `ControlledVideoPlayer` passes to the parent's
`onProgressUpdate` callback. -/
structure ProgressCallbackArg where
  completed : Bool
  watchedSeconds : Nat
deriving Repr, DecidableEq

/-- The server's reply to a progress post, as the client sees it. -/
structure ProgressResponse where
  max_watched_seconds : Nat
  completed : Bool
deriving Repr, DecidableEq

/-- `handleEnded`: posts `watched_seconds = total_seconds = duration`
and, when the post succeeds, calls `onProgressUpdate` with
`completed: true` and the duration.  The awaited response `resp` is
discarded by the source (`// We can't easily get the response here…`),
so it does not influence either component of the result. -/
def handleEnded (duration : Nat) (resp : ProgressResponse) :
    ProgressPost × ProgressCallbackArg :=
  (⟨duration, duration⟩, ⟨true, duration⟩)

/-! ## Attention Sampler & Debouncer (`useAttentionTracker.ts`) -/

/-- `DISTRACTION_THRESHOLD_MS = 10000` (10 seconds). -/
def DISTRACTION_THRESHOLD_MS : Nat := 10000

/-- `DETECTION_INTERVAL_MS = 500`. -/
def DETECTION_INTERVAL_MS : Nat := 500

/-- `TREND_WINDOW_MS = 3600000` (60 minutes). -/
def TREND_WINDOW_MS : Nat := 3600000

/-- `BREAK_SUGGESTION_THRESHOLD = 3`. -/
def BREAK_SUGGESTION_THRESHOLD : Nat := 3

/-- The hook's React state (`AttentionState`) together with the mutable
refs the detection loop reads and writes (`distractionStartRef`,
`eventTimestampsRef`, `eventTriggeredRef`).  Timestamps are `Date.now()`
milliseconds as Nat. -/
structure AttentionState where
  isTracking : Bool
  isFaceDetected : Bool
  distractionEvents : Nat
  currentDistractionDuration : Nat
  shouldSuggestBreak : Bool
  totalFocusedTime : Nat
  totalDistractedTime : Nat
  detectionScore : ℚ
  distractionStart : Option Nat
  eventTimestamps : List Nat
  eventTriggered : Bool
deriving Repr, DecidableEq

/-- The `useState` initial value of the hook (refs start as
`null` / `[]` / `false`). -/
def initialAttentionState : AttentionState where
  isTracking := false
  isFaceDetected := true
  distractionEvents := 0
  currentDistractionDuration := 0
  shouldSuggestBreak := false
  totalFocusedTime := 0
  totalDistractedTime := 0
  detectionScore := 0
  distractionStart := none
  eventTimestamps := []
  eventTriggered := false

/-- The detection-confidence bar `0.85` of the loop's filter
(`rawScore > 0.85`), written as the reduced fraction 17/20 so that the
kernel can evaluate comparisons against it; `CONFIDENCE_THRESHOLD_is_085`
below ties it to the decimal literal. -/
def CONFIDENCE_THRESHOLD : ℚ := Rat.mk' 17 20 (by decide) (by decide)

/-- The qualifying-detection filter of the detection loop:
`faceDetected = rawFace && rawScore > 0.85`. -/
def qualifies (rawFace : Bool) (rawScore : ℚ) : Bool :=
  rawFace && decide (CONFIDENCE_THRESHOLD < rawScore)

/-- One pass of the `setInterval` detection callback, acting on the
combined state at wall-clock time `now` with detector output
`(rawFace, rawScore)`.

Face present (qualifying): accumulate the elapsed distracted span into
`totalDistractedTime`, clear `distractionStartRef`, reset
`eventTriggeredRef`, zero `currentDistractionDuration`, and add one
detection interval to `totalFocusedTime`.

Face absent: start the distraction timer if idle; when the running
duration reaches `DISTRACTION_THRESHOLD_MS` and `eventTriggeredRef` is
not yet set, increment `distractionEvents`, set the guard, push `now`
onto `eventTimestampsRef`, prune entries with `now - t ≥
TREND_WINDOW_MS`, and raise `shouldSuggestBreak` once the pruned window
holds at least `BREAK_SUGGESTION_THRESHOLD` entries. -/
def detectionTick (s : AttentionState) (now : Nat) (rawFace : Bool)
    (rawScore : ℚ) : AttentionState :=
  let faceDetected := qualifies rawFace rawScore
  if faceDetected then
    match s.distractionStart with
    | some t0 =>
        { s with
            isFaceDetected := true
            detectionScore := rawScore
            totalDistractedTime := s.totalDistractedTime + (now - t0)
            distractionStart := none
            eventTriggered := false
            currentDistractionDuration := 0
            totalFocusedTime := s.totalFocusedTime + DETECTION_INTERVAL_MS }
    | none =>
        { s with
            isFaceDetected := true
            detectionScore := rawScore
            currentDistractionDuration := 0
            totalFocusedTime := s.totalFocusedTime + DETECTION_INTERVAL_MS }
  else
    let start := s.distractionStart.getD now
    let duration := now - start
    if DISTRACTION_THRESHOLD_MS ≤ duration ∧ s.eventTriggered = false then
      let pruned := (s.eventTimestamps ++ [now]).filter
        (fun t => decide (now - t < TREND_WINDOW_MS))
      { s with
          isFaceDetected := false
          detectionScore := rawScore
          distractionStart := some start
          currentDistractionDuration := duration
          distractionEvents := s.distractionEvents + 1
          eventTriggered := true
          eventTimestamps := pruned
          shouldSuggestBreak :=
            if BREAK_SUGGESTION_THRESHOLD ≤ pruned.length then true
            else s.shouldSuggestBreak }
    else
      { s with
          isFaceDetected := false
          detectionScore := rawScore
          distractionStart := some start
          currentDistractionDuration := duration }

/-- A maximal run of non-qualifying ticks (`facePresent = false`, score
0) at the given wall-clock times. -/
def runNoFace (s : AttentionState) (times : List Nat) : AttentionState :=
  times.foldl (fun st t => detectionTick st t false 0) s

/-- `dismissBreakSuggestion` ("Continue Anyway"): clears
`shouldSuggestBreak` and resets `eventTimestampsRef.current = []`. -/
def dismissBreakSuggestion (s : AttentionState) : AttentionState :=
  { s with shouldSuggestBreak := false, eventTimestamps := [] }

/-! ## Tracking lifecycle (`startTracking` / `stopTracking`) -/

/-- The hook's mutable resource refs: `streamRef` (a camera stream is
its list of track ids), `videoRef`, `canvasRef`, `detectorRef`,
`intervalRef`, `distractionStartRef`, plus the `isTracking` state
flag. -/
structure TrackerRefs where
  stream : Option (List Nat)
  videoEl : Option Nat
  canvasEl : Option Nat
  detector : Option Nat
  intervalId : Option Nat
  distractionStart : Option Nat
  isTracking : Bool
deriving Repr, DecidableEq

/-- The resources a successful `startTracking` call creates: the stream
returned by `getUserMedia`, the freshly created video and canvas
elements, the detector, and the id of the `setInterval` handle. -/
structure FreshResources where
  stream : List Nat
  videoEl : Nat
  canvasEl : Nat
  detector : Nat
  intervalId : Nat
deriving Repr, DecidableEq

/-- The externally visible release actions of a lifecycle call: interval
handles passed to `clearInterval`, detectors whose `close()` ran, and
camera tracks on which `track.stop()` ran. -/
structure ReleaseEffects where
  clearedIntervals : List Nat
  closedDetectors : List Nat
  stoppedTracks : List Nat
deriving Repr, DecidableEq

/-- The success path of `startTracking`: the function unconditionally
awaits `getUserMedia` (acquiring `fresh.stream`), overwrites
`streamRef`, creates and assigns a new video element and canvas,
initializes and assigns a new detector, sets `isTracking := true`, and
installs a new `setInterval` handle into `intervalRef`.  There is no
check of `isTracking` on entry, and no `clearInterval`, `close()` or
`track.stop()` occurs anywhere in its body, so the second component —
what the call released — is always empty. -/
def startTracking (r : TrackerRefs) (fresh : FreshResources) :
    TrackerRefs × ReleaseEffects :=
  ({ r with
      stream := some fresh.stream
      videoEl := some fresh.videoEl
      canvasEl := some fresh.canvasEl
      detector := some fresh.detector
      intervalId := some fresh.intervalId
      isTracking := true },
   ⟨[], [], []⟩)

/-- `stopTracking`: each ref is tested for `null` before release —
`clearInterval` on the interval handle, `close()` on the detector,
`track.stop()` on every track of the stream — then every ref is nulled
and `isTracking` set false.  The second component records exactly what
was released. -/
def stopTracking (r : TrackerRefs) : TrackerRefs × ReleaseEffects :=
  ({ r with
      stream := none
      videoEl := none
      canvasEl := none
      detector := none
      intervalId := none
      distractionStart := none
      isTracking := false },
   { clearedIntervals := r.intervalId.toList
     closedDetectors := r.detector.toList
     stoppedTracks := r.stream.getD [] })

/-! ## `AttentionMonitor.tsx` distraction-event effect -/

/-- The outcome of one run of the monitor's distraction-event
`useEffect`: the new value of `lastProcessedEventRef`, whether the video
was paused together with the transient notice, and whether a pause was
forced by the break suggestion. -/
structure MonitorEffectResult where
  lastProcessed : Nat
  pausedWithNotice : Bool
  pausedForBreak : Bool
deriving Repr, DecidableEq

/-- One run of the effect: if `distractionEvents` exceeds
`lastProcessedEventRef`, then — when the count is 1 or 2 (`> 0 && < 3`)
— the video is paused and a notice shown, and the ref is advanced to the
count; independently, whenever `shouldSuggestBreak` holds the pause is
enforced. -/
def distractionEffect (lastProcessed distractionEvents : Nat)
    (shouldSuggestBreak : Bool) : MonitorEffectResult :=
  let isNew := decide (lastProcessed < distractionEvents)
  { lastProcessed :=
      if lastProcessed < distractionEvents then distractionEvents
      else lastProcessed
    pausedWithNotice :=
      isNew && decide (0 < distractionEvents) && decide (distractionEvents < 3)
    pausedForBreak := shouldSuggestBreak }

/-- A run of successive effect invocations (each input is the pair
`(distractionEvents, shouldSuggestBreak)` the effect observes), yielding
the final ref value and, per invocation, whether the pause-with-notice
fired. -/
def runEffects (lastProcessed : Nat) (inputs : List (Nat × Bool)) :
    Nat × List Bool :=
  match inputs with
  | [] => (lastProcessed, [])
  | (e, b) :: rest =>
      let r := distractionEffect lastProcessed e b
      let out := runEffects r.lastProcessed rest
      (out.1, r.pausedWithNotice :: out.2)

/-! ## General lemmas -/

/-- The confidence bar 17/20 equals the source literal `0.85`. -/
theorem CONFIDENCE_THRESHOLD_is_085 : CONFIDENCE_THRESHOLD = 0.85 := by
  rw [← Rat.num_div_den CONFIDENCE_THRESHOLD]
  norm_num [CONFIDENCE_THRESHOLD]

/-- A detector reading with `facePresent = false` never qualifies. -/
theorem qualifies_false (sc : ℚ) : qualifies false sc = false := rfl

/-- Every ratchet step stays between the previous stored value and that
value plus `MAX_ADVANCE`. -/
theorem reportProgressMax_le (lastMax w : Nat) :
    lastMax ≤ reportProgressMax lastMax w
      ∧ reportProgressMax lastMax w ≤ lastMax + MAX_ADVANCE :=
  ⟨le_min (le_max_left _ _) (Nat.le_add_right _ _), min_le_right _ _⟩

/-- Along a (· ≤ ·) chain the default-carrying last element dominates
the starting point. -/
theorem chain_le_getLastD (c : Nat) (ts : List Nat)
    (h : List.Chain (· ≤ ·) c ts) : c ≤ ts.getLastD c := by
  induction ts generalizing c with
  | nil => exact Nat.le_refl c
  | cons t ts ih =>
      rw [List.chain_cons] at h
      rw [List.getLastD_cons]
      exact Nat.le_trans h.1 (ih t h.2)

/-- A tick of the detection loop whose reading does not qualify, taken
while the distraction timer is running, with the threshold crossed and
the per-span guard still clear: the distraction event fires. -/
theorem detectionTick_noface_fired (s : AttentionState) (now t0 : Nat)
    (hstart : s.distractionStart = some t0)
    (hth : DISTRACTION_THRESHOLD_MS ≤ now - t0)
    (hguard : s.eventTriggered = false) :
    detectionTick s now false 0 =
      { s with
          isFaceDetected := false
          detectionScore := 0
          distractionStart := some t0
          currentDistractionDuration := now - t0
          distractionEvents := s.distractionEvents + 1
          eventTriggered := true
          eventTimestamps := (s.eventTimestamps ++ [now]).filter
            (fun t => decide (now - t < TREND_WINDOW_MS))
          shouldSuggestBreak :=
            if BREAK_SUGGESTION_THRESHOLD ≤
                ((s.eventTimestamps ++ [now]).filter
                  (fun t => decide (now - t < TREND_WINDOW_MS))).length
            then true else s.shouldSuggestBreak } := by
  simp only [detectionTick, qualifies, Bool.false_and, Bool.false_eq_true, if_false,
    hstart, Option.getD_some]
  rw [if_pos ⟨hth, hguard⟩]

/-- A non-qualifying tick with a running distraction timer that does not
fire (below threshold, or the guard already set) only updates the
current duration. -/
theorem detectionTick_noface_quiet (s : AttentionState) (now t0 : Nat)
    (hstart : s.distractionStart = some t0)
    (hno : ¬ (DISTRACTION_THRESHOLD_MS ≤ now - t0 ∧ s.eventTriggered = false)) :
    detectionTick s now false 0 =
      { s with
          isFaceDetected := false
          detectionScore := 0
          distractionStart := some t0
          currentDistractionDuration := now - t0 } := by
  simp only [detectionTick, qualifies, Bool.false_and, Bool.false_eq_true, if_false,
    hstart, Option.getD_some]
  rw [if_neg hno]

/-- The first non-qualifying tick after a focused stretch anchors the
distraction timer at the current time and fires nothing. -/
theorem detectionTick_noface_fresh (s : AttentionState) (now : Nat)
    (hstart : s.distractionStart = none) :
    detectionTick s now false 0 =
      { s with
          isFaceDetected := false
          detectionScore := 0
          distractionStart := some now
          currentDistractionDuration := 0 } := by
  simp only [detectionTick, qualifies, Bool.false_and, Bool.false_eq_true, if_false,
    hstart, Option.getD_none, Nat.sub_self]
  rw [if_neg]
  intro h
  exact absurd h.1 (by decide)

/-- A qualifying tick during a distraction span accumulates the elapsed
span, clears the timer and resets the per-span fired guard. -/
theorem detectionTick_face (s : AttentionState) (t0 now : Nat) (rf : Bool) (sc : ℚ)
    (hstart : s.distractionStart = some t0) (hq : qualifies rf sc = true) :
    detectionTick s now rf sc =
      { s with
          isFaceDetected := true
          detectionScore := sc
          totalDistractedTime := s.totalDistractedTime + (now - t0)
          distractionStart := none
          eventTriggered := false
          currentDistractionDuration := 0
          totalFocusedTime := s.totalFocusedTime + DETECTION_INTERVAL_MS } := by
  simp only [detectionTick, hq, if_true, hstart]

/-- Invariant of a continuous non-qualifying run: with the distraction
timer anchored at `t0` and the fired guard agreeing with whether the
clock `c` has crossed the threshold, folding further non-qualifying
ticks at non-decreasing times keeps the anchor, keeps the guard in step
with the last time seen, and increments the event counter exactly on
the first threshold crossing. -/
theorem runNoFace_invariant (ts : List Nat) :
    ∀ (s : AttentionState) (t0 c : Nat),
      s.distractionStart = some t0 →
      t0 ≤ c →
      s.eventTriggered = decide (DISTRACTION_THRESHOLD_MS ≤ c - t0) →
      List.Chain (· ≤ ·) c ts →
      (runNoFace s ts).distractionStart = some t0
      ∧ (runNoFace s ts).eventTriggered
          = decide (DISTRACTION_THRESHOLD_MS ≤ ts.getLastD c - t0)
      ∧ (runNoFace s ts).distractionEvents
          + (if DISTRACTION_THRESHOLD_MS ≤ c - t0 then 1 else 0)
        = s.distractionEvents
          + (if DISTRACTION_THRESHOLD_MS ≤ ts.getLastD c - t0 then 1 else 0) := by
  induction ts with
  | nil =>
      intro s t0 c hstart ht0c htrig hchain
      exact ⟨hstart, htrig, rfl⟩
  | cons t ts ih =>
      intro s t0 c hstart ht0c htrig hchain
      rw [List.chain_cons] at hchain
      obtain ⟨hct, hchain⟩ := hchain
      have hrun : runNoFace s (t :: ts) = runNoFace (detectionTick s t false 0) ts := rfl
      rw [List.getLastD_cons]
      by_cases hfire : DISTRACTION_THRESHOLD_MS ≤ t - t0 ∧ s.eventTriggered = false
      · -- the threshold is crossed at tick `t` and the guard is clear: the event fires here
        have hcold : ¬ DISTRACTION_THRESHOLD_MS ≤ c - t0 := by
          intro hcc
          rw [htrig, decide_eq_true hcc] at hfire
          exact Bool.true_eq_false.mp hfire.2
        have hs' := detectionTick_noface_fired s t t0 hstart hfire.1 hfire.2
        have htlast : t ≤ ts.getLastD t := chain_le_getLastD t ts hchain
        have hlast : DISTRACTION_THRESHOLD_MS ≤ ts.getLastD t - t0 :=
          Nat.le_trans hfire.1 (Nat.sub_le_sub_right htlast t0)
        obtain ⟨ih1, ih2, ih3⟩ := ih (detectionTick s t false 0) t0 t
          (by rw [hs']) (Nat.le_trans ht0c hct)
          (by rw [hs', decide_eq_true hfire.1]) hchain
        have hev' : (detectionTick s t false 0).distractionEvents
            = s.distractionEvents + 1 := by rw [hs']
        refine ⟨by rw [hrun]; exact ih1, by rw [hrun]; exact ih2, ?_⟩
        rw [hrun]
        rw [if_pos hfire.1, hev', if_pos hlast] at ih3
        rw [if_neg hcold, if_pos hlast]
        omega
      · -- no event at tick `t`: either below threshold or already fired
        have hs' := detectionTick_noface_quiet s t t0 hstart hfire
        have htrig' : (detectionTick s t false 0).eventTriggered
            = decide (DISTRACTION_THRESHOLD_MS ≤ t - t0) := by
          rw [hs']
          by_cases hth : DISTRACTION_THRESHOLD_MS ≤ t - t0
          · have hT : s.eventTriggered = true := by
              cases hb : s.eventTriggered
              · exact absurd ⟨hth, hb⟩ hfire
              · rfl
            rw [decide_eq_true hth]
            exact hT
          · have hcc : ¬ DISTRACTION_THRESHOLD_MS ≤ c - t0 := fun hcc =>
              hth (Nat.le_trans hcc (Nat.sub_le_sub_right hct t0))
            simp only [htrig, hcc, decide_eq_false hcc, hth, decide_eq_false hth]
        obtain ⟨ih1, ih2, ih3⟩ := ih (detectionTick s t false 0) t0 t
          (by rw [hs']) (Nat.le_trans ht0c hct) htrig' hchain
        refine ⟨by rw [hrun]; exact ih1, by rw [hrun]; exact ih2, ?_⟩
        rw [hrun]
        have hev' : (detectionTick s t false 0).distractionEvents = s.distractionEvents := by
          rw [hs']
        rw [hev'] at ih3
        by_cases hth : DISTRACTION_THRESHOLD_MS ≤ t - t0
        · have hcc : DISTRACTION_THRESHOLD_MS ≤ c - t0 := by
            have hT : s.eventTriggered = true := by
              cases hb : s.eventTriggered
              · exact absurd ⟨hth, hb⟩ hfire
              · rfl
            rw [hT] at htrig
            exact of_decide_eq_true htrig.symm
          rw [if_pos hth] at ih3
          rw [if_pos hcc]
          omega
        · have hcc : ¬ DISTRACTION_THRESHOLD_MS ≤ c - t0 := fun hcc =>
            hth (Nat.le_trans hcc (Nat.sub_le_sub_right hct t0))
          rw [if_neg hth] at ih3
          rw [if_neg hcc]
          omega

/-! ## Claim C1 -/

/-- C1: every accepted `reportProgress` update follows
`newMax = min(max(lastMax, watchedSeconds), lastMax + MAX_ADVANCE)`, so
along any call sequence the stored `maxWatchedSeconds` is non-decreasing
and each step's increase is at most `MAX_ADVANCE`; in particular with
`lastMax = 100` and `MAX_ADVANCE = 15`, reporting
`watchedSeconds = 500` stores 115, not 500. -/
theorem C1_ratchet_monotone_bounded :
    (∀ lastMax w, lastMax ≤ reportProgressMax lastMax w
        ∧ reportProgressMax lastMax w ≤ lastMax + MAX_ADVANCE)
    ∧ (∀ last calls,
        List.Chain (fun a b => a ≤ b ∧ b ≤ a + MAX_ADVANCE)
          last (ratchetSteps last calls))
    ∧ reportProgressMax 100 500 = 115
    ∧ reportProgressMax 100 500 ≠ 500 := by
  refine ⟨reportProgressMax_le, fun last calls => ?_, by decide, by decide⟩
  induction calls generalizing last with
  | nil => exact List.Chain.nil
  | cons w ws ih =>
      exact List.Chain.cons (reportProgressMax_le last w)
        (ih (reportProgressMax last w))

/-! ## Claim C2 -/

/-- C2: `handleSeeking` on a mandatory video clamps the position back to
`maxWatched` exactly when the target exceeds `maxWatched + 2` and leaves
it unchanged otherwise (so every backward seek passes); on a
non-mandatory video it is a no-op.  Concretely, with `maxWatched = 40` a
seek to 70 is clamped to 40 and a seek to 41 is allowed unclamped. -/
theorem C2_seek_guard :
    (∀ m t, handleSeeking true m t = if m + 2 < t then m else t)
    ∧ (∀ m t, handleSeeking false m t = t)
    ∧ handleSeeking true 40 70 = 40
    ∧ handleSeeking true 40 41 = 41 := by
  refine ⟨fun m t => ?_, fun m t => rfl, by decide, by decide⟩
  simp [handleSeeking]

/-! ## Claim C3 -/

/-- C3: over any continuous run of sampling ticks without a qualifying
detection, starting from a focused state (no running timer, guard
clear), at non-decreasing tick times `t0 :: ts`, the distraction-event
counter rises by exactly one when the span `ts.getLastD t0 - t0`
reaches `DISTRACTION_THRESHOLD_MS` and by zero otherwise — so a span of
twice the threshold still yields exactly one event; moreover once the
guard has fired a further non-qualifying tick never increments the
counter, and only a qualifying detection (face with confidence above
the bar) clears the guard and the timer, enabling a future event. -/
theorem C3_distraction_debounce :
    (∀ (s : AttentionState) (t0 : Nat) (ts : List Nat),
        s.distractionStart = none →
        s.eventTriggered = false →
        List.Chain (· ≤ ·) t0 ts →
        (runNoFace s (t0 :: ts)).distractionEvents
          = s.distractionEvents
            + (if DISTRACTION_THRESHOLD_MS ≤ ts.getLastD t0 - t0 then 1 else 0))
    ∧ (∀ (s : AttentionState) (now : Nat),
        s.eventTriggered = true →
        (detectionTick s now false 0).distractionEvents = s.distractionEvents)
    ∧ (∀ (s : AttentionState) (t0 now : Nat) (rf : Bool) (sc : ℚ),
        s.distractionStart = some t0 →
        qualifies rf sc = true →
        (detectionTick s now rf sc).eventTriggered = false
          ∧ (detectionTick s now rf sc).distractionStart = none) := by
  refine ⟨?_, ?_, ?_⟩
  · intro s t0 ts hstart htrig hchain
    have h1 := detectionTick_noface_fresh s t0 hstart
    have hrun : runNoFace s (t0 :: ts) = runNoFace (detectionTick s t0 false 0) ts := rfl
    obtain ⟨_, _, ih3⟩ := runNoFace_invariant ts (detectionTick s t0 false 0) t0 t0
      (by rw [h1]) (Nat.le_refl t0)
      (by rw [h1]
          show s.eventTriggered = decide (DISTRACTION_THRESHOLD_MS ≤ t0 - t0)
          rw [htrig, Nat.sub_self]
          decide) hchain
    have hev : (detectionTick s t0 false 0).distractionEvents = s.distractionEvents := by
      rw [h1]
    rw [Nat.sub_self, if_neg (by decide : ¬ DISTRACTION_THRESHOLD_MS ≤ 0), hev] at ih3
    rw [hrun]
    omega
  · intro s now htrig
    cases hs : s.distractionStart with
    | none => rw [detectionTick_noface_fresh s now hs]
    | some t0 =>
        rw [detectionTick_noface_quiet s now t0 hs
          (fun h => by rw [htrig] at h; exact Bool.true_eq_false.mp h.2)]
  · intro s t0 now rf sc hstart hq
    rw [detectionTick_face s t0 now rf sc hstart hq]
    exact ⟨rfl, rfl⟩

/-- C3 witness: a fresh tracker that sees no face at times 0, 10000 and
20000 ms — a span of twice `DISTRACTION_THRESHOLD_MS` — records exactly
one distraction event. -/
theorem C3_distraction_debounce_witness :
    (runNoFace initialAttentionState [0, 10000, 20000]).distractionEvents
        = initialAttentionState.distractionEvents
          + (if DISTRACTION_THRESHOLD_MS ≤ [10000, 20000].getLastD 0 - 0 then 1 else 0)
    ∧ (runNoFace initialAttentionState [0, 10000, 20000]).distractionEvents = 1 :=
  ⟨C3_distraction_debounce.1 initialAttentionState 0 [10000, 20000] rfl rfl
      (List.Chain.cons (by decide) (List.Chain.cons (by decide) List.Chain.nil)),
    by decide⟩

/-! ## Claim C4 -/

/-- C4: `shouldSuggestBreak` is (re)computed only at the moment a new
distraction event is appended — the firing tick prunes every timestamp
whose age reaches `TREND_WINDOW_MS` from the window (the fresh event
included) and sets the flag exactly when the pruned window holds at
least `BREAK_SUGGESTION_THRESHOLD = 3` timestamps; non-firing ticks and
qualifying ticks leave the flag untouched.  Concretely, a third event
whose two predecessors are inside the window sets the flag, while a
third event whose predecessors span more than `TREND_WINDOW_MS` does
not. -/
theorem C4_break_suggestion_window :
    (∀ (s : AttentionState) (now t0 : Nat),
        s.distractionStart = some t0 →
        DISTRACTION_THRESHOLD_MS ≤ now - t0 →
        s.eventTriggered = false →
        (detectionTick s now false 0).shouldSuggestBreak
          = (if BREAK_SUGGESTION_THRESHOLD ≤
                ((s.eventTimestamps ++ [now]).filter
                  (fun t => decide (now - t < TREND_WINDOW_MS))).length
             then true else s.shouldSuggestBreak))
    ∧ (∀ (s : AttentionState) (now t0 : Nat),
        s.distractionStart = some t0 →
        ¬ (DISTRACTION_THRESHOLD_MS ≤ now - t0 ∧ s.eventTriggered = false) →
        (detectionTick s now false 0).shouldSuggestBreak = s.shouldSuggestBreak)
    ∧ (∀ (s : AttentionState) (t0 now : Nat) (rf : Bool) (sc : ℚ),
        s.distractionStart = some t0 →
        qualifies rf sc = true →
        (detectionTick s now rf sc).shouldSuggestBreak = s.shouldSuggestBreak)
    ∧ (detectionTick
        { initialAttentionState with
            distractionEvents := 2
            eventTimestamps := [3585000, 3590000]
            distractionStart := some 3590000 } 3600000 false 0).shouldSuggestBreak
        = true
    ∧ (detectionTick
        { initialAttentionState with
            distractionEvents := 2
            eventTimestamps := [0, 1700000]
            distractionStart := some 3690000 } 3700000 false 0).shouldSuggestBreak
        = false := by
  refine ⟨?_, ?_, ?_, by decide, by decide⟩
  · intro s now t0 hstart hth hguard
    rw [detectionTick_noface_fired s now t0 hstart hth hguard]
  · intro s now t0 hstart hno
    rw [detectionTick_noface_quiet s now t0 hstart hno]
  · intro s t0 now rf sc hstart hq
    rw [detectionTick_face s t0 now rf sc hstart hq]

/-- C4 witness: the firing-tick clause applied to a concrete state with
two in-window timestamps; the appended third event sets the flag. -/
theorem C4_break_suggestion_window_witness :
    (detectionTick
      { initialAttentionState with
          eventTimestamps := [3585000, 3590000]
          distractionStart := some 3590000 } 3600000 false 0).shouldSuggestBreak
      = true := by
  rw [C4_break_suggestion_window.1
    { initialAttentionState with
        eventTimestamps := [3585000, 3590000]
        distractionStart := some 3590000 } 3600000 3590000 rfl (by decide) rfl]
  decide

/-! ## Claim C5 -/

/-- C5: the monitor's distraction effect pauses the video together with
the transient notice exactly when a not-yet-processed event count is 1
or 2; `lastProcessedEventRef` then advances past the count, so the same
count can never trigger the pause-with-notice twice; whenever
`shouldSuggestBreak` holds, a pause is forced.  The concrete run over
observed counts 1, 1, 2, 2, 3 fires the notice exactly at the first
occurrence of 1 and the first occurrence of 2. -/
theorem C5_first_two_events_pause :
    (∀ l e b, (distractionEffect l e b).pausedWithNotice = true
        ↔ (l < e ∧ 0 < e ∧ e < 3))
    ∧ (∀ l e b, l ≤ (distractionEffect l e b).lastProcessed
        ∧ e ≤ (distractionEffect l e b).lastProcessed)
    ∧ (∀ l e b b', (distractionEffect
          (distractionEffect l e b).lastProcessed e b').pausedWithNotice = false)
    ∧ (∀ l e b, (distractionEffect l e b).pausedForBreak = b)
    ∧ (runEffects 0 [(1, false), (1, false), (2, false), (2, false), (3, true)]).2
        = [true, false, true, false, false] := by
  refine ⟨?_, ?_, ?_, fun l e b => rfl, by decide⟩
  · intro l e b
    simp [distractionEffect, and_assoc]
  · intro l e b
    constructor <;> simp only [distractionEffect] <;> split <;> omega
  · intro l e b b'
    by_cases h : l < e
    · simp [distractionEffect, h]
    · simp [distractionEffect, h]

/-! ## Claim C6 -/

/-- C6 counterexample: the client advances its optimistic `maxWatched`
to 120 via `handleTimeUpdate`, then a late sync response carrying the
older server value 50 arrives; `applyProgressResponse` stores 50,
overwriting the newer local 120 — the claimed ordinal comparison does
not exist in `saveProgress`. -/
theorem C6_counterexample :
    handleTimeUpdate 100 120 = 120
      ∧ applyProgressResponse (handleTimeUpdate 100 120) 50 = 50
      ∧ applyProgressResponse (handleTimeUpdate 100 120) 50 ≠ 120 := by
  decide

/-- C6 (amended): the reconciliation in `saveProgress` is an
unconditional overwrite — every server response replaces the local
`maxWatched` regardless of how the two compare, and a burst of
responses leaves exactly the last-arriving value, so a stale response
can regress a newer optimistic local value. -/
theorem C6_blind_overwrite :
    (∀ m r, applyProgressResponse m r = r)
    ∧ (∀ m (rs : List Nat),
        rs.foldl applyProgressResponse m = rs.getLastD m) := by
  refine ⟨fun m r => rfl, fun m rs => ?_⟩
  induction rs generalizing m with
  | nil => rfl
  | cons r rs ih => rw [List.foldl_cons, List.getLastD_cons]; exact ih r

/-! ## Claim C7 -/

/-- C7 counterexample: with tracking already active (stream `[1]`,
video 2, canvas 3, detector 4, interval 5), a second `startTracking`
call is not a no-op — it acquires and installs a fresh stream `[6]` and
replaces every resource ref, while releasing nothing (the first stream's
tracks are never stopped). -/
theorem C7_counterexample :
    (startTracking ⟨some [1], some 2, some 3, some 4, some 5, none, true⟩
        ⟨[6], 7, 8, 9, 10⟩).fst
      ≠ ⟨some [1], some 2, some 3, some 4, some 5, none, true⟩
    ∧ (startTracking ⟨some [1], some 2, some 3, some 4, some 5, none, true⟩
        ⟨[6], 7, 8, 9, 10⟩).fst.stream = some [6]
    ∧ (startTracking ⟨some [1], some 2, some 3, some 4, some 5, none, true⟩
        ⟨[6], 7, 8, 9, 10⟩).snd.stoppedTracks = [] := by
  decide

/-- C7 (amended): `startTracking` has no already-tracking guard — on
every call, whatever the current refs and the `isTracking` flag, its
success path acquires the fresh stream and overwrites the
stream/video/canvas/detector/interval refs, sets `isTracking`, and
releases none of the previously held resources (no `clearInterval`,
detector `close()` or `track.stop()` occurs), so a prior stream and
interval are simply leaked. -/
theorem C7_start_unguarded :
    ∀ (r : TrackerRefs) (f : FreshResources),
      (startTracking r f).fst.stream = some f.stream
      ∧ (startTracking r f).fst.videoEl = some f.videoEl
      ∧ (startTracking r f).fst.canvasEl = some f.canvasEl
      ∧ (startTracking r f).fst.detector = some f.detector
      ∧ (startTracking r f).fst.intervalId = some f.intervalId
      ∧ (startTracking r f).fst.isTracking = true
      ∧ (startTracking r f).snd = ⟨[], [], []⟩ :=
  fun r f => ⟨rfl, rfl, rfl, rfl, rfl, rfl, rfl⟩

/-! ## Claim C8 -/

/-- C8: `stopTracking` is idempotent — the first call releases exactly
the held interval handle, detector and camera tracks and nulls every
ref with `isTracking = false`; the second call changes nothing and
releases nothing (each release is guarded by a null check, so the
second call cannot throw: the embedding is a total function on the
all-null state). -/
theorem C8_stop_idempotent :
    ∀ r : TrackerRefs,
      ((stopTracking r).fst.stream = none
        ∧ (stopTracking r).fst.detector = none
        ∧ (stopTracking r).fst.intervalId = none
        ∧ (stopTracking r).fst.videoEl = none
        ∧ (stopTracking r).fst.canvasEl = none
        ∧ (stopTracking r).fst.isTracking = false)
      ∧ (stopTracking r).snd
          = ⟨r.intervalId.toList, r.detector.toList, r.stream.getD []⟩
      ∧ stopTracking (stopTracking r).fst = ((stopTracking r).fst, ⟨[], [], []⟩) :=
  fun r => ⟨⟨rfl, rfl, rfl, rfl, rfl, rfl⟩, rfl, rfl⟩

/-! ## Claim C9 -/

/-- C9 counterexample: dismissing the break suggestion from a state
holding two recent event timestamps does not keep them — the
`eventTimestampsRef` window is reset to `[]`, so those prior events no
longer count toward the next break suggestion. -/
theorem C9_counterexample :
    (dismissBreakSuggestion
        { initialAttentionState with
            distractionEvents := 3
            shouldSuggestBreak := true
            eventTimestamps := [1000, 2000] }).eventTimestamps = []
    ∧ ([1000, 2000] : List Nat) ≠ [] := by
  decide

/-- C9 (amended): "Continue Anyway" clears `shouldSuggestBreak` and
also empties the trend-window timestamp list; every other field —
including the accumulated `distractionEvents` counter and the focus and
distraction totals — is untouched.  Prior events therefore stop
counting toward the next break suggestion, which needs
`BREAK_SUGGESTION_THRESHOLD` fresh timestamps. -/
theorem C9_dismiss_resets_window :
    ∀ s : AttentionState,
      (dismissBreakSuggestion s).shouldSuggestBreak = false
      ∧ (dismissBreakSuggestion s).eventTimestamps = []
      ∧ (dismissBreakSuggestion s).distractionEvents = s.distractionEvents
      ∧ (dismissBreakSuggestion s).totalFocusedTime = s.totalFocusedTime
      ∧ (dismissBreakSuggestion s).totalDistractedTime = s.totalDistractedTime
      ∧ (dismissBreakSuggestion s).eventTriggered = s.eventTriggered
      ∧ (dismissBreakSuggestion s).distractionStart = s.distractionStart
      ∧ (dismissBreakSuggestion s).isTracking = s.isTracking :=
  fun s => ⟨rfl, rfl, rfl, rfl, rfl, rfl, rfl, rfl⟩

/-! ## Claim C10 -/

/-- C10: after the native `ended` event the player posts
`watched_seconds = total_seconds = duration` and, whenever the post
does not throw, invokes `onProgressUpdate` with `completed := true`
unconditionally — the callback argument is the same whatever response
the server returned.  The flag the (spec-modelled) server actually
computes can differ: a fresh ratchet clamped to `MAX_ADVANCE = 15` on a
100-second video leaves `completed = false` on the server while the
client still reports `true`. -/
theorem C10_ended_completed_unconditionally :
    (∀ d resp, handleEnded d resp
        = (⟨d, d⟩, ⟨true, d⟩))
    ∧ (∀ d r₁ r₂, handleEnded d r₁ = handleEnded d r₂)
    ∧ serverCompleted (reportProgressMax 0 100) 100 = false := by
  exact ⟨fun d resp => rfl, fun d r₁ r₂ => rfl, by decide⟩

end Eduaithon
